import Mathlib

/-!
# Verification of the conmon-rs process-supervision subsystem

Shallow embedding of the child-reaping engine
(`src/conmon-rs/server/src/child_reaper.rs`), the journald log driver
(`src/conmon-rs/server/src/container_log/journald.rs`) and the
`exec_sync_container` request handler (`src/conmon-rs/server/src/rpc.rs`).

Modelling conventions:
* machine integers become `Nat`/`Int` (pids are `i32`, hence `Int` with the
  `try_into` bound made explicit);
* the filesystem is an environment `FsFailure : String → Bool` saying which
  paths fail on `File::create`/`write_all`;
* fallible code returns `Except`;
* the reaping loop body becomes a step function on an explicit `LoopState`,
  and interleavings of registration and termination become event traces
  (the registry lock serializes all registry operations in the source, so a
  linearized trace model is faithful).
-/

namespace ConmonRs

/-! ## Child registry (`child_reaper.rs`)

`ChildReaper` holds `children: Arc<RwLock<HashMap<i32, ReapableChild>>>`.
-/

/-- Mirrors `ReapableChild { id, child, exit_paths }`.  The tokio `Child`
handle is elided: its only use in the source is the pid extraction
`c.id()` inside `wait_child`, which is modelled as the `childId : Option Nat`
argument of `waitChild` below.  Note the struct has no `oom_exit_paths`
field in the source. -/
structure ReapableChild where
  id : String
  exit_paths : List String
  deriving Repr, DecidableEq

/-- Association-list model of `HashMap<i32, ReapableChild>`: lookup finds the
first matching key, and keys stay unique when built by `mapInsert`. -/
abbrev Registry := List (Int × ReapableChild)

/-- `HashMap::insert`: stores the value at the key, replacing and returning
the previous value if one was present. -/
def mapInsert : Registry → Int → ReapableChild → Registry × Option ReapableChild
  | [], k, v => ([(k, v)], none)
  | (k1, v1) :: rest, k, v =>
    if k = k1 then
      ((k, v) :: rest, some v1)
    else
      let r := mapInsert rest k v
      ((k1, v1) :: r.1, r.2)

/-- `i32::MAX`, the bound of the `u32 → i32` `try_into` in `wait_child`. -/
def i32Max : Nat := 2147483647

/-- `ChildReaper::wait_child(id, c, exit_paths)`.  The source first extracts
the pid from the child handle (`c.id()`, absent once the process has
completed, then `try_into::<i32>()`), erroring before any map mutation, and
then performs `map.insert(pid, reapable_child)`, bailing with a repeat-PID
error when the insert returned a previous entry.  Returns the resulting
registry together with the `Result`. -/
def waitChild (m : Registry) (id : String) (childId : Option Nat)
    (exit_paths : List String) : Registry × Except String Unit :=
  match childId with
  | none => (m, .error ("child PID for container " ++ id ++ " died"))
  | some n =>
    if n ≤ i32Max then
      let r := mapInsert m (n : Int) { id := id, exit_paths := exit_paths }
      match r.2 with
      | some old => (r.1, .error ("Repeat PID for container " ++ old.id ++ " found"))
      | none => (r.1, .ok ())
    else
      (m, .error "out of range integral type conversion attempted")

/-! ## Exit-path writes and the reaping loop (`child_reaper.rs`) -/

/-- Filesystem failure environment: `fails p = true` means `File::create(p)`
or the subsequent `write_all` fails with an I/O error. -/
abbrev FsFailure := String → Bool

/-- `write_to_exit_paths(code, paths)` with `code_str = format!("{}", code)`
already computed.  Returns the chronological list of performed writes
`(path, contents)` together with `true` for `Ok`.  The `?` operator on
`File::create(path)?.write_all(..)?` propagates the first error out of the
`for` loop, so paths after a failing one are not attempted. -/
def write_to_exit_paths (fails : FsFailure) (code_str : String) :
    List String → List (String × String) × Bool
  | [] => ([], true)
  | p :: rest =>
    if fails p then
      ([], false)
    else
      let r := write_to_exit_paths fails code_str rest
      ((p, code_str) :: r.1, r.2)

/-- `nix::sys::wait::WaitStatus`: the variants matched in
`wait_for_children`.  `Exited` and `StillAlive` have dedicated arms;
every other variant falls into the catch-all `Ok(status)` arm.  An
out-of-memory kill is delivered by the kernel as
`Signaled(pid, SIGKILL, _)`, not as `Exited`. -/
inductive WaitStatus where
  | Exited (pid : Int) (ec : Int)
  | StillAlive
  | Signaled (pid : Int) (signal : Nat) (coreDumped : Bool)
  | Stopped (pid : Int) (signal : Nat)
  | Continued (pid : Int)
  deriving Repr, DecidableEq

/-- Log lines emitted by one iteration of the reaping loop, keeping the
information the source interpolates into each message. -/
inductive LogEvent where
  | looping
  | unexpectedStatus (status : WaitStatus)
  | exitCodeFor (id : String) (ec : Int)
  | exitPathWriteFailed
  deriving Repr, DecidableEq

/-- Observable state of the daemon around the reaping loop:
* `registry` — the shared `children` map;
* `files` — chronological write batches, one batch per reaped pid
  (the `Int` tag records which pid the iteration processed);
* `logs` — emitted log lines;
* `notifications` — exit notifications pushed to per-child channels.
  The source loop owns no channels and never pushes a notification, so
  this field makes that absence observable: no step ever extends it. -/
structure LoopState where
  registry : Registry
  files : List (Int × List (String × String))
  logs : List LogEvent
  notifications : List (Int × Int)
  deriving Repr, DecidableEq

/-- One iteration of the `loop` body in `ChildReaper::wait_for_children`,
given the `Ok` result of `waitpid(-1, WNOHANG)`:
* `StillAlive` → `continue`;
* any other non-`Exited` status → log it, `continue`;
* `Exited(pid, ec)` → look the pid up in the registry: absent → `continue`;
  present → log the exit code and run `write_to_exit_paths`, logging an
  error if it failed.  The entry is only read (`children.get`), never
  removed, and nothing is pushed anywhere else. -/
def reapStep (fails : FsFailure) (s : LoopState) (status : WaitStatus) : LoopState :=
  let s0 := { s with logs := s.logs ++ [LogEvent.looping] }
  match status with
  | .StillAlive => s0
  | .Exited pid ec =>
    match s0.registry.lookup pid with
    | none => s0
    | some child =>
      let s1 := { s0 with logs := s0.logs ++ [LogEvent.exitCodeFor child.id ec] }
      let w := write_to_exit_paths fails (toString ec) child.exit_paths
      { s1 with
        files := s1.files ++ [(pid, w.1)],
        logs := if w.2 then s1.logs else s1.logs ++ [LogEvent.exitPathWriteFailed] }
  | other => { s0 with logs := s0.logs ++ [LogEvent.unexpectedStatus other] }

/-- Outcome of one loop iteration including the `waitpid` call itself:
an `Err` from `waitpid` hits the `panic!` arm; every `Ok` status flows into
`reapStep` and the loop continues. -/
inductive StepOutcome where
  | continued (s : LoopState)
  | panicked (msg : String)
  deriving Repr, DecidableEq

/-- One full iteration: `waitpid` result in, outcome out. -/
def reapIter (fails : FsFailure) (s : LoopState) (w : Except String WaitStatus) :
    StepOutcome :=
  match w with
  | .error e => .panicked ("Error waiting for PIDs " ++ e)
  | .ok status => .continued (reapStep fails s status)

/-! ## Interleaved registration and termination

The registry lock serializes every registry operation, so any concurrent
execution linearizes to a trace of these events. -/

/-- An event visible to the registry: a handler registering a child through
`wait_child`, or the reaping loop processing one `waitpid` status. -/
inductive Event where
  | register (id : String) (childId : Option Nat) (exit_paths : List String)
  | wait (status : WaitStatus)
  deriving Repr, DecidableEq

/-- Apply one event.  A failed registration leaves whatever registry
`waitChild` produced (the error goes back to the handler; the daemon
continues). -/
def applyEvent (fails : FsFailure) (s : LoopState) : Event → LoopState
  | .register id cid paths =>
    { s with registry := (waitChild s.registry id cid paths).1 }
  | .wait status => reapStep fails s status

/-- Run a linearized trace of events. -/
def runEvents (fails : FsFailure) (s : LoopState) (evs : List Event) : LoopState :=
  evs.foldl (applyEvent fails) s

/-- Daemon start state: empty registry, nothing written, logged or notified. -/
def initState : LoopState :=
  { registry := [], files := [], logs := [], notifications := [] }

/-- Number of write batches the loop performed for pid `p`. -/
def batchCount (p : Int) (files : List (Int × List (String × String))) : Nat :=
  files.countP (fun b => b.1 == p)

/-- Every write succeeds. -/
def noFail : FsFailure := fun _ => false

/-! ## Journald log driver (`container_log/journald.rs`) -/

/-- `crate::container_io::Pipe`. -/
inductive Pipe where
  | stdOut
  | stdErr
  deriving Repr, DecidableEq

/-- The stream tag interpolated into each record. -/
def pipeTag : Pipe → String
  | .stdOut => "stdout"
  | .stdErr => "stderr"

/-- The record built per line:
`format!("{:?} [{}] {}", SystemTime::now(), tag, line_buf.trim())`.
The timestamp rendering is an opaque input string. -/
def formatEntry (timestamp : String) (pipe : Pipe) (line : String) : String :=
  timestamp ++ " [" ++ pipeTag pipe ++ "] " ++ line.trim

/-- Mirrors `JournaldLogger { max_log_size, bytes_written }`. -/
structure JournaldLogger where
  max_log_size : Option Nat
  bytes_written : Nat
  deriving Repr, DecidableEq

/-- `JournaldLogger::new`. -/
def JournaldLogger.new (max_log_size : Option Nat) : JournaldLogger :=
  { max_log_size := max_log_size, bytes_written := 0 }

/-- Observations of one `write` call: how often `reopen` ran, and each
record handed to `Journal.write_all` paired with the value of
`bytes_written` at that moment. -/
structure JournalObs where
  reopens : Nat
  written : List (String × Nat)
  deriving Repr, DecidableEq

/-- The per-line body of `JournaldLogger::write`: format the record, add its
byte length (`log_entry.len()`) to `bytes_written`; if a `max_log_size` is
configured and the counter now exceeds it, call `reopen` and reset the
counter to zero; then write the record to the journal. -/
def writeLine (l : JournaldLogger) (obs : JournalObs) (timestamp : String)
    (pipe : Pipe) (line : String) : JournaldLogger × JournalObs :=
  let log_entry := formatEntry timestamp pipe line
  let bytes_len := log_entry.utf8ByteSize
  let bw := l.bytes_written + bytes_len
  match l.max_log_size with
  | some max_size =>
    if bw > max_size then
      ({ l with bytes_written := 0 },
       { reopens := obs.reopens + 1, written := obs.written ++ [(log_entry, 0)] })
    else
      ({ l with bytes_written := bw },
       { obs with written := obs.written ++ [(log_entry, bw)] })
  | none =>
    ({ l with bytes_written := bw },
     { obs with written := obs.written ++ [(log_entry, bw)] })

/-- The `while read_line > 0` loop of `JournaldLogger::write` over a list of
(timestamp, line) pairs on one pipe. -/
def writeLines (pipe : Pipe) :
    JournaldLogger → JournalObs → List (String × String) → JournaldLogger × JournalObs
  | l, obs, [] => (l, obs)
  | l, obs, (ts, line) :: rest =>
    let r := writeLine l obs ts pipe line
    writeLines pipe r.1 r.2 rest

/-! ## `exec_sync_container` (`rpc.rs`) -/

/-- The capnp response fields relevant to the claims (`stdout`/`stderr`
payloads are elided: no claim concerns them).  Capnp fields default to
`0`/`false` when not set. -/
structure ExecSyncResponse where
  exit_code : Int
  timed_out : Bool
  deriving Repr, DecidableEq

/-- Environment of one `exec_sync_container` call: outcomes of the
collaborator calls the handler makes, plus the timing of the spawned
process on an abstract clock.  `ioCloseTime` is when both output streams
close, `exitTime` when the process terminates. -/
structure ExecEnv where
  spawnOk : Bool
  watchOk : Bool
  recvOk : Bool
  ioCloseTime : Nat
  exitTime : Nat
  exitCode : Int
  deriving Repr, DecidableEq

/-- Modelled from the spec: `read_all_with_timeout` lives in
`container_io.rs`, which is not under `src/`.  Spec §4.4: it drains both
streams, "returning early (with a timed-out flag) if the deadline elapses
before both streams close"; with no deadline it waits unboundedly.  So the
flag is true iff a deadline was supplied and elapses before both streams
close. -/
def read_all_with_timeout (deadline : Option Nat) (e : ExecEnv) : Bool :=
  match deadline with
  | none => false
  | some d => decide (d < e.ioCloseTime)

/-- Modelled from the spec: the `timed_out` field of the `ExitData` pushed by
the Exit Notifier is produced outside `src/`.  Spec §4.3: it is "an
equivalent flag the Exit Notifier may set if it determines the process was
still unterminated at deadline" — so it can be true only when the child was
registered with a deadline and outlived it. -/
def exitDataTimedOut (deadline : Option Nat) (e : ExecEnv) : Bool :=
  match deadline with
  | none => false
  | some d => decide (d < e.exitTime)

/-- `conmon::Server::exec_sync_container` (rpc.rs), with collaborator calls
resolved through `ExecEnv`.  From the source: `time_to_timeout` is
`Some(now + timeout)` iff `timeout > 0`; on spawn failure the handler logs
and answers with exit code `-2`, returning `Ok`; on success it registers the
grandchild (`watch_grandchild`, fallible), drains I/O against the deadline,
awaits the exit notification (fallible), and sets `timed_out` iff the
I/O-side flag or the notifier-side flag is set. -/
def exec_sync_container (now : Nat) (timeout : Nat) (e : ExecEnv) :
    Except String ExecSyncResponse :=
  if e.spawnOk then
    let time_to_timeout : Option Nat := if timeout > 0 then some (now + timeout) else none
    if e.watchOk then
      let io_timed_out := read_all_with_timeout time_to_timeout e
      if e.recvOk then
        let exit_timed_out := exitDataTimedOut time_to_timeout e
        .ok { exit_code := e.exitCode, timed_out := io_timed_out || exit_timed_out }
      else
        .error "exit notification receive failed"
    else
      .error "watch grandchild failed"
  else
    .ok { exit_code := -2, timed_out := false }

/-! ## Registry lemmas -/

theorem mapInsert_snd (m : Registry) (k : Int) (v : ReapableChild) :
    (mapInsert m k v).2 = m.lookup k := by
  induction m with
  | nil => simp [mapInsert, List.lookup]
  | cons hd tl ih =>
    obtain ⟨k1, v1⟩ := hd
    by_cases h : k = k1
    · subst h; simp [mapInsert, List.lookup]
    · have hb : (k == k1) = false := beq_eq_false_iff_ne.mpr h
      simp [mapInsert, h, List.lookup, hb, ih]

theorem lookup_mapInsert (m : Registry) (k : Int) (v : ReapableChild) (q : Int) :
    (mapInsert m k v).1.lookup q = if q = k then some v else m.lookup q := by
  induction m with
  | nil =>
    by_cases h : q = k
    · simp [mapInsert, List.lookup, h]
    · have hb : (q == k) = false := beq_eq_false_iff_ne.mpr h
      simp [mapInsert, List.lookup, h, hb]
  | cons hd tl ih =>
    obtain ⟨k1, v1⟩ := hd
    by_cases h : k = k1
    · subst h
      by_cases hq : q = k
      · simp [mapInsert, List.lookup, hq]
      · have hb : (q == k) = false := beq_eq_false_iff_ne.mpr hq
        simp [mapInsert, List.lookup, hq, hb]
    · by_cases hq : q = k1
      · subst hq
        have hqk : ¬ q = k := fun hh => h hh.symm
        simp [mapInsert, h, List.lookup, hqk]
      · have hb : (q == k1) = false := beq_eq_false_iff_ne.mpr hq
        simp [mapInsert, h, List.lookup, hq, hb, ih]

theorem waitChild_fst_some (m : Registry) (id : String) (paths : List String)
    (n : Nat) (hn : n ≤ i32Max) :
    (waitChild m id (some n) paths).1
      = (mapInsert m (n : Int) { id := id, exit_paths := paths }).1 := by
  simp only [waitChild]
  rw [if_pos hn]
  cases h : (mapInsert m (n : Int) { id := id, exit_paths := paths }).2 <;> simp [h]

/-! ## Exit-path write lemmas -/

theorem write_to_exit_paths_ok (fails : FsFailure) (cs : String) (paths : List String)
    (h : ∀ q ∈ paths, fails q = false) :
    write_to_exit_paths fails cs paths = (paths.map (fun q => (q, cs)), true) := by
  induction paths with
  | nil => rfl
  | cons p rest ih =>
    have hp : fails p = false := h p (by simp)
    simp [write_to_exit_paths, hp, ih (fun q hq => h q (by simp [hq]))]

theorem write_to_exit_paths_aborts (fails : FsFailure) (cs : String)
    (pre : List String) (bad : String) (rest : List String)
    (hpre : ∀ q ∈ pre, fails q = false) (hbad : fails bad = true) :
    write_to_exit_paths fails cs (pre ++ bad :: rest)
      = (pre.map (fun q => (q, cs)), false) := by
  induction pre with
  | nil => simp [write_to_exit_paths, hbad]
  | cons p ps ih =>
    have hp : fails p = false := hpre p (by simp)
    simp [write_to_exit_paths, hp, ih (fun q hq => hpre q (by simp [hq]))]

/-! ## Reap-step projection lemmas -/

theorem reapStep_registry (fails : FsFailure) (s : LoopState) (status : WaitStatus) :
    (reapStep fails s status).registry = s.registry := by
  cases status <;> (simp only [reapStep]; try rfl)
  case Exited pid ec => cases h : s.registry.lookup pid <;> simp [h]

theorem reapStep_notifications (fails : FsFailure) (s : LoopState) (status : WaitStatus) :
    (reapStep fails s status).notifications = s.notifications := by
  cases status <;> (simp only [reapStep]; try rfl)
  case Exited pid ec => cases h : s.registry.lookup pid <;> simp [h]

theorem reapStep_files_other (fails : FsFailure) (s : LoopState) (status : WaitStatus)
    (h : ∀ pid ec, status ≠ .Exited pid ec) :
    (reapStep fails s status).files = s.files := by
  cases status <;> (simp only [reapStep]; try rfl)
  case Exited pid ec => exact absurd rfl (h pid ec)

theorem reapStep_files_absent (fails : FsFailure) (s : LoopState) (pid : Int) (ec : Int)
    (h : s.registry.lookup pid = none) :
    (reapStep fails s (.Exited pid ec)).files = s.files := by
  simp [reapStep, h]

theorem reapStep_files_present (fails : FsFailure) (s : LoopState) (pid : Int) (ec : Int)
    (c : ReapableChild) (h : s.registry.lookup pid = some c) :
    (reapStep fails s (.Exited pid ec)).files
      = s.files ++ [(pid, (write_to_exit_paths fails (toString ec) c.exit_paths).1)] := by
  simp [reapStep, h]

/-! ## Trace lemmas -/

theorem runEvents_nil (fails : FsFailure) (s : LoopState) : runEvents fails s [] = s := rfl

theorem runEvents_cons (fails : FsFailure) (s : LoopState) (e : Event) (evs : List Event) :
    runEvents fails s (e :: evs) = runEvents fails (applyEvent fails s e) evs := rfl

theorem runEvents_append (fails : FsFailure) (s : LoopState) (l1 l2 : List Event) :
    runEvents fails s (l1 ++ l2) = runEvents fails (runEvents fails s l1) l2 := by
  simp [runEvents, List.foldl_append]

theorem applyEvent_notifications (fails : FsFailure) (s : LoopState) (e : Event) :
    (applyEvent fails s e).notifications = s.notifications := by
  cases e with
  | register id cid paths => rfl
  | wait st => exact reapStep_notifications fails s st

theorem runEvents_notifications (fails : FsFailure) (evs : List Event) :
    ∀ s : LoopState, (runEvents fails s evs).notifications = s.notifications := by
  induction evs with
  | nil => intro s; rfl
  | cons e rest ih =>
    intro s
    rw [runEvents_cons, ih, applyEvent_notifications]

theorem applyEvent_lookup_isSome (fails : FsFailure) (s : LoopState) (e : Event) (p : Int)
    (h : (s.registry.lookup p).isSome = true) :
    ((applyEvent fails s e).registry.lookup p).isSome = true := by
  cases e with
  | wait st =>
    have : (applyEvent fails s (.wait st)).registry = s.registry := reapStep_registry fails s st
    rw [this]; exact h
  | register id cid paths =>
    cases cid with
    | none => exact h
    | some n =>
      by_cases hn : n ≤ i32Max
      · have hfst := waitChild_fst_some s.registry id paths n hn
        show (((waitChild s.registry id (some n) paths).1).lookup p).isSome = true
        rw [hfst, lookup_mapInsert]
        by_cases hp : p = (n : Int) <;> simp [hp, h]
      · show (((waitChild s.registry id (some n) paths).1).lookup p).isSome = true
        simp only [waitChild]
        rw [if_neg hn]
        exact h

theorem runEvents_lookup_isSome (fails : FsFailure) (evs : List Event) :
    ∀ (s : LoopState) (p : Int), (s.registry.lookup p).isSome = true →
      ((runEvents fails s evs).registry.lookup p).isSome = true := by
  induction evs with
  | nil => intro s p h; exact h
  | cons e rest ih =>
    intro s p h
    rw [runEvents_cons]
    exact ih _ _ (applyEvent_lookup_isSome fails s e p h)

/-! ## Write-batch counting lemmas -/

theorem batchCount_append (p : Int) (a b : List (Int × List (String × String))) :
    batchCount p (a ++ b) = batchCount p a + batchCount p b := by
  simp [batchCount, List.countP_append]

theorem batchCount_applyEvent_ne (fails : FsFailure) (s : LoopState) (e : Event) (p : Int)
    (h : ∀ ec, e ≠ .wait (.Exited p ec)) :
    batchCount p (applyEvent fails s e).files = batchCount p s.files := by
  cases e with
  | register id cid paths => rfl
  | wait st =>
    show batchCount p (reapStep fails s st).files = batchCount p s.files
    cases st with
    | Exited q ec =>
      have hq : ¬ q = p := by
        intro hqp; subst hqp; exact (h ec) rfl
      cases hl : s.registry.lookup q with
      | none => rw [reapStep_files_absent fails s q ec hl]
      | some c =>
        rw [reapStep_files_present fails s q ec c hl, batchCount_append]
        simp [batchCount, hq]
    | StillAlive =>
      rw [reapStep_files_other fails s _ (fun _ _ hh => WaitStatus.noConfusion hh)]
    | Signaled q sig cd =>
      rw [reapStep_files_other fails s _ (fun _ _ hh => WaitStatus.noConfusion hh)]
    | Stopped q sig =>
      rw [reapStep_files_other fails s _ (fun _ _ hh => WaitStatus.noConfusion hh)]
    | Continued q =>
      rw [reapStep_files_other fails s _ (fun _ _ hh => WaitStatus.noConfusion hh)]

theorem batchCount_runEvents_ne (fails : FsFailure) (p : Int) (evs : List Event) :
    ∀ s : LoopState, (∀ ec, Event.wait (.Exited p ec) ∉ evs) →
      batchCount p (runEvents fails s evs).files = batchCount p s.files := by
  induction evs with
  | nil => intro s _; rfl
  | cons e rest ih =>
    intro s h
    rw [runEvents_cons, ih _ (fun ec hmem => h ec (List.mem_cons_of_mem _ hmem))]
    · exact batchCount_applyEvent_ne fails s e p
        (fun ec he => h ec (by rw [he]; exact List.mem_cons_self _ _))

theorem batchCount_reapStep_present (fails : FsFailure) (s : LoopState) (p : Int) (ec : Int)
    (c : ReapableChild) (h : s.registry.lookup p = some c) :
    batchCount p (reapStep fails s (.Exited p ec)).files = batchCount p s.files + 1 := by
  rw [reapStep_files_present fails s p ec c h, batchCount_append]
  simp [batchCount]

/-! ## Concrete fixtures used by counterexamples and witnesses -/

/-- The spec scenario child: exit paths `/tmp/a` and `/tmp/b`. -/
def child4242 : ReapableChild := { id := "cid4242", exit_paths := ["/tmp/a", "/tmp/b"] }

/-- Loop state with pid 4242 registered and nothing written, logged or
notified yet. -/
def state4242 : LoopState :=
  { registry := [((4242 : Int), child4242)], files := [], logs := [], notifications := [] }

/-- Failure environment in which exactly the path `/tmp/a` fails. -/
def failsA : FsFailure := fun q => q == "/tmp/a"

/-! ## Claim C10 -/

/-- Claim C10 (confirmed): when the child handle no longer exposes an OS
process id (`c.id()` returns `None` because the process already completed),
`wait_child` returns an error and inserts nothing: the registry comes back
unchanged. -/
theorem claim10_no_pid_errors_registry_unchanged
    (m : Registry) (id : String) (paths : List String) :
    waitChild m id none paths
      = (m, .error ("child PID for container " ++ id ++ " died")) := rfl

/-! ## Claim C3 -/

/-- Claim C3 counterexample: with pid 5 live (an entry for container `c1`),
a second registration of pid 5 for container `c2` does return an error, but
the registry is NOT unchanged: the new entry has replaced the old one
(`HashMap::insert` runs before the duplicate check bails). -/
theorem claim3_counterexample :
    (waitChild [(5, { id := "c1", exit_paths := ["/a"] })] "c2" (some 5) ["/b"]).2
        = .error "Repeat PID for container c1 found" ∧
    ¬ ((waitChild [(5, { id := "c1", exit_paths := ["/a"] })] "c2" (some 5) ["/b"]).1
        = [(5, { id := "c1", exit_paths := ["/a"] })]) := by
  exact ⟨rfl, by decide⟩

/-- Claim C3 (corrected): registering a process id that is already live
fails with the repeat-PID error, but the registry is changed on that error:
the new child overwrites the existing entry (entries at other keys are
untouched).  Registering a pid that is absent from the registry succeeds. -/
theorem claim3_duplicate_pid_errors_but_overwrites
    (m : Registry) (p : Nat) (c : ReapableChild) (id2 : String) (paths2 : List String)
    (hp : p ≤ i32Max) (hc : m.lookup (p : Int) = some c) :
    (waitChild m id2 (some p) paths2).2
        = .error ("Repeat PID for container " ++ c.id ++ " found") ∧
    (waitChild m id2 (some p) paths2).1.lookup (p : Int)
        = some { id := id2, exit_paths := paths2 } ∧
    (∀ q : Int, q ≠ (p : Int) →
        (waitChild m id2 (some p) paths2).1.lookup q = m.lookup q) ∧
    (∀ m2 : Registry, m2.lookup (p : Int) = none →
        (waitChild m2 id2 (some p) paths2).2 = .ok () ∧
        (waitChild m2 id2 (some p) paths2).1.lookup (p : Int)
          = some { id := id2, exit_paths := paths2 }) := by
  refine ⟨?_, ?_, ?_, ?_⟩
  · simp only [waitChild]
    rw [if_pos hp]
    have h2 : (mapInsert m (p : Int) { id := id2, exit_paths := paths2 }).2 = some c := by
      rw [mapInsert_snd]; exact hc
    simp [h2]
  · rw [waitChild_fst_some m id2 paths2 p hp, lookup_mapInsert]
    simp
  · intro q hq
    rw [waitChild_fst_some m id2 paths2 p hp, lookup_mapInsert, if_neg hq]
  · intro m2 h2
    constructor
    · simp only [waitChild]
      rw [if_pos hp]
      have h3 : (mapInsert m2 (p : Int) { id := id2, exit_paths := paths2 }).2 = none := by
        rw [mapInsert_snd]; exact h2
      simp [h3]
    · rw [waitChild_fst_some m2 id2 paths2 p hp, lookup_mapInsert]
      simp

/-- Claim C3 witness: concrete registry with pid 5 live, and a concrete
registry without pid 5. -/
theorem claim3_witness :
    (waitChild [(5, { id := "c1", exit_paths := ["/a"] })] "c2" (some 5) ["/b"]).2
        = .error ("Repeat PID for container "
            ++ ({ id := "c1", exit_paths := ["/a"] } : ReapableChild).id ++ " found") ∧
    (waitChild [] "c2" (some 5) ["/b"]).2 = .ok () := by
  have h := claim3_duplicate_pid_errors_but_overwrites
      [(5, { id := "c1", exit_paths := ["/a"] })] 5 { id := "c1", exit_paths := ["/a"] }
      "c2" ["/b"] (by decide) (by decide)
  exact ⟨h.1, (h.2.2.2 [] (by decide)).1⟩

/-! ## Claim C2 -/

/-- Claim C2 counterexample: pid 4242 exits with code 7; both exit paths are
written with the decimal text `7`, but afterwards the registry STILL
contains process id 4242 — the loop only reads the entry (`children.get`)
and never removes it. -/
theorem claim2_counterexample :
    (reapStep noFail state4242 (.Exited 4242 7)).files
        = [(4242, [("/tmp/a", "7"), ("/tmp/b", "7")])] ∧
    ¬ ((reapStep noFail state4242 (.Exited 4242 7)).registry.lookup 4242 = none) := by
  decide

/-- Claim C2 (corrected): when the loop observes `Exited(p, ec)` for a
registered pid and every write succeeds, it writes the exit code as decimal
text to every path in the child's `exit_paths`, in order — but it does NOT
remove the entry: the registry is unchanged and still contains `p`
afterwards. -/
theorem claim2_exit_writes_all_paths_entry_not_removed
    (fails : FsFailure) (s : LoopState) (p : Int) (ec : Int) (c : ReapableChild)
    (hc : s.registry.lookup p = some c)
    (hok : ∀ q ∈ c.exit_paths, fails q = false) :
    (reapStep fails s (.Exited p ec)).files
        = s.files ++ [(p, c.exit_paths.map (fun q => (q, toString ec)))] ∧
    (reapStep fails s (.Exited p ec)).registry = s.registry ∧
    (reapStep fails s (.Exited p ec)).registry.lookup p = some c := by
  refine ⟨?_, reapStep_registry fails s _, ?_⟩
  · rw [reapStep_files_present fails s p ec c hc,
        write_to_exit_paths_ok fails (toString ec) c.exit_paths hok]
  · rw [reapStep_registry]; exact hc

/-- Claim C2 witness: the spec scenario (pid 4242, exit code 7, exit paths
`/tmp/a` and `/tmp/b`, all writes succeeding). -/
theorem claim2_witness :
    (reapStep noFail state4242 (.Exited 4242 7)).files
        = state4242.files
            ++ [((4242 : Int), child4242.exit_paths.map (fun q => (q, toString (7 : Int))))] ∧
    (reapStep noFail state4242 (.Exited 4242 7)).registry = state4242.registry ∧
    (reapStep noFail state4242 (.Exited 4242 7)).registry.lookup 4242 = some child4242 :=
  claim2_exit_writes_all_paths_entry_not_removed noFail state4242 4242 7 child4242
    (by decide) (by decide)

/-! ## Claim C4 -/

/-- Claim C4 counterexample: with exit paths `[/tmp/a, /tmp/b]` and
`/tmp/a` failing, nothing is written at all: the failure on `/tmp/a` aborts
the loop, so `/tmp/b` — which itself would not fail — is never attempted. -/
theorem claim4_counterexample :
    (write_to_exit_paths failsA "7" ["/tmp/a", "/tmp/b"]).1 = [] ∧
    failsA "/tmp/b" = false ∧
    ¬ (("/tmp/b", "7") ∈ (write_to_exit_paths failsA "7" ["/tmp/a", "/tmp/b"]).1) := by
  decide

/-- Claim C4 (corrected): a failed write to one exit path aborts the writes
to every later path in the list — the `?` operator propagates the first
error out of the loop, so only the paths BEFORE the failing one are
written.  The failure is non-fatal: the reaping loop logs
`failed to write to exit paths` and continues, registry untouched. -/
theorem claim4_write_failure_aborts_remaining_writes
    (fails : FsFailure) (cs : String) (pre : List String) (bad : String) (rest : List String)
    (hpre : ∀ q ∈ pre, fails q = false) (hbad : fails bad = true) :
    write_to_exit_paths fails cs (pre ++ bad :: rest)
        = (pre.map (fun q => (q, cs)), false) ∧
    (∀ (s : LoopState) (p : Int) (ec : Int) (c : ReapableChild),
      s.registry.lookup p = some c → c.exit_paths = pre ++ bad :: rest →
      (reapStep fails s (.Exited p ec)).files
          = s.files ++ [(p, pre.map (fun q => (q, toString ec)))] ∧
      (reapStep fails s (.Exited p ec)).registry = s.registry ∧
      LogEvent.exitPathWriteFailed ∈ (reapStep fails s (.Exited p ec)).logs ∧
      reapIter fails s (.ok (.Exited p ec)) = .continued (reapStep fails s (.Exited p ec))) := by
  constructor
  · exact write_to_exit_paths_aborts fails cs pre bad rest hpre hbad
  · intro s p ec c hc hpaths
    have habort := write_to_exit_paths_aborts fails (toString ec) pre bad rest hpre hbad
    refine ⟨?_, reapStep_registry fails s _, ?_, rfl⟩
    · rw [reapStep_files_present fails s p ec c hc, hpaths, habort]
    · simp [reapStep, hc, hpaths, habort]

/-- Claim C4 witness: `/tmp/a` fails first, `/tmp/b` is never written;
the loop logs the failure and continues. -/
theorem claim4_witness :
    write_to_exit_paths failsA "7" ([] ++ "/tmp/a" :: ["/tmp/b"]) = ([], false) ∧
    LogEvent.exitPathWriteFailed ∈ (reapStep failsA state4242 (.Exited 4242 7)).logs := by
  have h := claim4_write_failure_aborts_remaining_writes failsA "7" [] "/tmp/a" ["/tmp/b"]
      (by decide) (by decide)
  exact ⟨h.1, (h.2 state4242 4242 7 child4242 (by decide) rfl).2.2.1⟩

/-! ## Claim C5 -/

/-- Claim C5 counterexample: pid 4242 is registered (with exit paths) and is
OOM-killed — the kernel reports wait status `Signaled(4242, SIGKILL = 9)`.
No file write of any kind happens: there are no oom-exit-path writes (the
registry entry has no `oom_exit_paths` field at all), and not even the
normal exit-path writes occur, because the status falls into the
unexpected-status arm of the loop. -/
theorem claim5_counterexample :
    (reapStep noFail state4242 (.Signaled 4242 9 false)).files = [] ∧
    (reapStep noFail state4242 (.Signaled 4242 9 false)).registry = state4242.registry := by
  decide

/-- Claim C5 (corrected): an OOM termination is delivered as a `Signaled`
wait status, which the loop treats as unexpected: it performs no writes at
all (no oom-exit-path writes exist anywhere, and the exit-path writes are
skipped too), leaves the registry untouched, logs the status, and
continues. -/
theorem claim5_oom_termination_writes_nothing
    (fails : FsFailure) (s : LoopState) (p : Int) (sig : Nat) (cd : Bool) :
    (reapStep fails s (.Signaled p sig cd)).files = s.files ∧
    (reapStep fails s (.Signaled p sig cd)).registry = s.registry ∧
    (reapStep fails s (.Signaled p sig cd)).logs
        = s.logs ++ [LogEvent.looping, LogEvent.unexpectedStatus (.Signaled p sig cd)] ∧
    reapIter fails s (.ok (.Signaled p sig cd))
        = .continued (reapStep fails s (.Signaled p sig cd)) := by
  refine ⟨reapStep_files_other fails s _ (fun _ _ h => WaitStatus.noConfusion h),
          reapStep_registry fails s _, ?_, rfl⟩
  simp [reapStep]

/-! ## Claim C9 -/

/-- Claim C9 (confirmed): the loop body never panics on any `Ok` wait
status: an unexpected status (neither `Exited` nor `StillAlive`) is logged
and looped past with registry, files and notifications untouched;
`StillAlive` just continues; and an `Exited` pid absent from the registry is
ignored — the state is unchanged apart from the routine `looping` debug
line. -/
theorem claim9_loop_survives_unexpected_status_and_unknown_pid
    (fails : FsFailure) (s : LoopState) (status : WaitStatus) :
    (reapIter fails s (.ok status) = .continued (reapStep fails s status)) ∧
    ((∀ p ec, status ≠ .Exited p ec) → status ≠ .StillAlive →
      (reapStep fails s status).registry = s.registry ∧
      (reapStep fails s status).files = s.files ∧
      (reapStep fails s status).notifications = s.notifications ∧
      LogEvent.unexpectedStatus status ∈ (reapStep fails s status).logs) ∧
    (reapStep fails s .StillAlive = { s with logs := s.logs ++ [LogEvent.looping] }) ∧
    (∀ p ec, s.registry.lookup p = none →
      reapStep fails s (.Exited p ec) = { s with logs := s.logs ++ [LogEvent.looping] }) := by
  refine ⟨rfl, ?_, rfl, ?_⟩
  · intro h1 h2
    refine ⟨reapStep_registry fails s _, reapStep_files_other fails s _ h1,
            reapStep_notifications fails s _, ?_⟩
    cases status with
    | Exited p ec => exact absurd rfl (h1 p ec)
    | StillAlive => exact absurd rfl h2
    | Signaled p sig cd => simp [reapStep]
    | Stopped p sig => simp [reapStep]
    | Continued p => simp [reapStep]
  · intro p ec h
    simp [reapStep, h]

/-- Claim C9 witness: a `Stopped` status is logged and looped past with the
registry intact, and an exit of unregistered pid 99 leaves the state
unchanged apart from the `looping` line. -/
theorem claim9_witness :
    (reapStep noFail state4242 (.Stopped 1 2)).registry = state4242.registry ∧
    LogEvent.unexpectedStatus (.Stopped 1 2) ∈ (reapStep noFail state4242 (.Stopped 1 2)).logs ∧
    reapStep noFail state4242 (.Exited 99 0)
      = { state4242 with logs := state4242.logs ++ [LogEvent.looping] } := by
  have h := claim9_loop_survives_unexpected_status_and_unknown_pid noFail state4242 (.Stopped 1 2)
  have h2 := h.2.1 (fun _ _ hh => WaitStatus.noConfusion hh) (fun hh => WaitStatus.noConfusion hh)
  exact ⟨h2.1, h2.2.2.2, h.2.2.2 99 0 (by decide)⟩

/-! ## Claim C6 -/

/-- With `timeout = 0` no deadline exists, so neither timeout flag can ever
be set: the call reduces to the deadline-free shape. -/
theorem exec_sync_zero_shape (now : Nat) (e : ExecEnv) :
    exec_sync_container now 0 e
      = if e.spawnOk then
          (if e.watchOk then
            (if e.recvOk then .ok { exit_code := e.exitCode, timed_out := false }
             else .error "exit notification receive failed")
           else .error "watch grandchild failed")
        else .ok { exit_code := -2, timed_out := false } := by
  simp [exec_sync_container, read_all_with_timeout, exitDataTimedOut]

/-- Claim C6 (confirmed): a `exec_sync_container` request with
`timeout = 0` never answers with `timed_out = true`, no matter how long the
spawned process runs: zero timeout means no deadline is ever created, so
both the I/O drain and the exit-notification wait are unbounded. -/
theorem claim6_zero_timeout_never_times_out
    (now : Nat) (e : ExecEnv) (resp : ExecSyncResponse)
    (h : exec_sync_container now 0 e = .ok resp) :
    resp.timed_out = false := by
  rw [exec_sync_zero_shape] at h
  split_ifs at h
  all_goals first
    | exact Except.noConfusion h
    | (injection h with h4; rw [← h4])

/-- An execution in which the process and its streams stay open for a very
long time and everything else succeeds. -/
def envLongRun : ExecEnv :=
  { spawnOk := true, watchOk := true, recvOk := true,
    ioCloseTime := 1000000, exitTime := 1000000, exitCode := 3 }

/-- Claim C6 witness: the long-running execution with `timeout = 0` yields a
successful response whose `timed_out` flag is false. -/
theorem claim6_witness :
    exec_sync_container 0 0 envLongRun = .ok { exit_code := 3, timed_out := false } ∧
    ({ exit_code := 3, timed_out := false } : ExecSyncResponse).timed_out = false :=
  ⟨rfl, claim6_zero_timeout_never_times_out 0 envLongRun _ rfl⟩

/-! ## Claim C7 -/

/-- Claim C7 (confirmed): when the spawn of the underlying process fails,
`exec_sync_container` answers with the sentinel exit code `-2` inside a
normal `Ok` response — no protocol-level error is propagated — and
`timed_out` keeps its default `false`: the caller always observes an exit
code. -/
theorem claim7_spawn_failure_yields_sentinel_exit_code
    (now : Nat) (timeout : Nat) (e : ExecEnv) (h : e.spawnOk = false) :
    exec_sync_container now timeout e = .ok { exit_code := -2, timed_out := false } := by
  simp [exec_sync_container, h]

/-- An execution whose spawn fails. -/
def envNoSpawn : ExecEnv :=
  { spawnOk := false, watchOk := true, recvOk := true,
    ioCloseTime := 0, exitTime := 0, exitCode := 0 }

/-- Claim C7 witness: a concrete failed spawn returns the sentinel. -/
theorem claim7_witness :
    exec_sync_container 0 5 envNoSpawn = .ok { exit_code := -2, timed_out := false } :=
  claim7_spawn_failure_yields_sentinel_exit_code 0 5 envNoSpawn rfl

/-! ## Claim C8 -/

theorem utf8ByteSize_append (a b : String) :
    (a ++ b).utf8ByteSize = a.utf8ByteSize + b.utf8ByteSize := by
  obtain ⟨da⟩ := a
  obtain ⟨db⟩ := b
  show (String.mk (da ++ db)).utf8ByteSize = _
  simp

/-- Every formatted journal record is nonempty: it contains at least the
stream-tag brackets. -/
theorem formatEntry_size_pos (ts : String) (pipe : Pipe) (line : String) :
    0 < (formatEntry ts pipe line).utf8ByteSize := by
  have h2 : (0 : Nat) < (" [" : String).utf8ByteSize := by decide
  unfold formatEntry
  rw [utf8ByteSize_append, utf8ByteSize_append, utf8ByteSize_append, utf8ByteSize_append]
  omega

/-- Claim C8 (confirmed): on the record whose accumulated formatted byte
length makes `bytes_written` exceed the configured `max_log_size`, exactly
one `reopen` call is triggered and the counter is reset to zero before the
record is written — the journal write observes counter 0 — the triggering
record is still written, and the counter observed immediately after is 0,
strictly less than the size of the triggering record (plus the already-reset
baseline 0): only post-rotation accounting remains. -/
theorem claim8_rotation_on_exceeding_record
    (l : JournaldLogger) (obs : JournalObs) (n : Nat)
    (ts : String) (pipe : Pipe) (line : String)
    (hmax : l.max_log_size = some n)
    (hexceed : l.bytes_written + (formatEntry ts pipe line).utf8ByteSize > n) :
    (writeLine l obs ts pipe line).2.reopens = obs.reopens + 1 ∧
    (writeLine l obs ts pipe line).1.bytes_written = 0 ∧
    (writeLine l obs ts pipe line).2.written = obs.written ++ [(formatEntry ts pipe line, 0)] ∧
    (writeLine l obs ts pipe line).1.bytes_written
        < (formatEntry ts pipe line).utf8ByteSize := by
  have hpos := formatEntry_size_pos ts pipe line
  refine ⟨?_, ?_, ?_, ?_⟩ <;> simp [writeLine, hmax, hexceed, hpos]

/-- Claim C8 witness: `max_log_size = 5`; the very first record
`T [stdout] hi` (13 bytes) pushes the counter over 5, triggering one reopen
with the counter reset before the write. -/
theorem claim8_witness :
    (writeLine (JournaldLogger.new (some 5)) { reopens := 0, written := [] }
        "T" Pipe.stdOut "hi").2.reopens = 0 + 1 ∧
    (writeLine (JournaldLogger.new (some 5)) { reopens := 0, written := [] }
        "T" Pipe.stdOut "hi").1.bytes_written = 0 ∧
    (writeLine (JournaldLogger.new (some 5)) { reopens := 0, written := [] }
        "T" Pipe.stdOut "hi").2.written
      = [] ++ [(formatEntry "T" Pipe.stdOut "hi", 0)] ∧
    (writeLine (JournaldLogger.new (some 5)) { reopens := 0, written := [] }
        "T" Pipe.stdOut "hi").1.bytes_written
      < (formatEntry "T" Pipe.stdOut "hi").utf8ByteSize := by
  have h := claim8_rotation_on_exceeding_record (JournaldLogger.new (some 5))
      { reopens := 0, written := [] } 5 "T" Pipe.stdOut "hi" rfl (by decide)
  exact h

/-! ## Claim C1 -/

/-- Claim C1 counterexample: a child is registered for pid 5 and its
termination is then observed and processed by the loop; the number of exit
notifications produced is 0, not exactly 1 — the reaping loop has no
notification channel to push to. -/
theorem claim1_counterexample :
    ¬ ((runEvents noFail initState
        [Event.register "c1" (some 5) ["/tmp/exit5"],
         Event.wait (.Exited 5 0)]).notifications.length = 1) := by
  decide

/-- Claim C1 (corrected): in every linearized trace of registrations and
terminations in which pid `p` is live in the registry when its unique
`Exited` status is processed, the loop performs exactly one batch of
exit-path writes for `p` — but it produces no exit notification at all:
the notification log of the whole run stays empty. -/
theorem claim1_one_write_batch_zero_notifications
    (fails : FsFailure) (pre post : List Event) (p : Int) (ec : Int)
    (hreg : ((runEvents fails initState pre).registry.lookup p).isSome = true)
    (hpre : ∀ ec2, Event.wait (.Exited p ec2) ∉ pre)
    (hpost : ∀ ec2, Event.wait (.Exited p ec2) ∉ post) :
    batchCount p
        (runEvents fails initState (pre ++ Event.wait (.Exited p ec) :: post)).files = 1 ∧
    (runEvents fails initState
        (pre ++ Event.wait (.Exited p ec) :: post)).notifications = [] := by
  constructor
  · rw [runEvents_append, runEvents_cons]
    obtain ⟨c, hc⟩ := Option.isSome_iff_exists.mp hreg
    have h0 : batchCount p (runEvents fails initState pre).files = 0 := by
      rw [batchCount_runEvents_ne fails p pre initState hpre]
      rfl
    rw [batchCount_runEvents_ne fails p post _ hpost]
    show batchCount p
        (reapStep fails (runEvents fails initState pre) (.Exited p ec)).files = 1
    rw [batchCount_reapStep_present fails _ p ec c hc, h0]
  · rw [runEvents_notifications]
    rfl

/-- Claim C1 witness: register pid 5, then process its exit. -/
theorem claim1_witness :
    batchCount 5 (runEvents noFail initState
        ([Event.register "c1" (some 5) ["/tmp/exit5"]]
          ++ Event.wait (.Exited 5 7) :: [])).files = 1 ∧
    (runEvents noFail initState
        ([Event.register "c1" (some 5) ["/tmp/exit5"]]
          ++ Event.wait (.Exited 5 7) :: [])).notifications = [] := by
  refine claim1_one_write_batch_zero_notifications noFail
      [Event.register "c1" (some 5) ["/tmp/exit5"]] [] 5 7 (by decide) ?_ ?_
  · intro ec2
    simp
  · intro ec2
    simp

end ConmonRs
